import Mathlib

/-!
Verification of `src/websiteV3/js/main.js` (client-side enhancement script).

Shallow embedding: each module's DOM-mutating handler is translated into a
pure Lean function over an explicit state type.  DOM class-list membership,
inline styles, attributes and the persisted theme preference become explicit
fields; JS numbers driving the counter animation become `Int`/`Nat` with the
relevant comparisons; `parseInt` failure (NaN) becomes `Option Int`.
-/

/-! ## Preloader (main.js lines 15-61)

`loadedCount` starts at 0; `totalItems = document.images.length + 2`.
`increment` bumps the counter, sets the progress-bar width to
`loadedCount / totalItems * 100` percent, and schedules the fade-out once
`loadedCount >= totalItems`. -/

/-- State of the preloader: the load counter and whether the fade-out
(`loader.classList.add('fade-out')` after the 500ms delay) has been
scheduled by the `loadedCount >= totalItems` test. -/
structure PreState where
  loadedCount : Nat
  fadeScheduled : Bool
deriving DecidableEq

/-- `const totalItems = document.images.length + 2` (line 17). -/
def totalItems (numImages : Nat) : Nat := numImages + 2

/-- One call of `increment` (lines 19-32): `loadedCount++`, then the
`loadedCount >= totalItems` check schedules the fade-out (scheduling is
never undone, hence the disjunction with the previous flag). -/
def increment (total : Nat) (s : PreState) : PreState :=
  ⟨s.loadedCount + 1, s.fadeScheduled || decide (total ≤ s.loadedCount + 1)⟩

/-- Progress-bar width: `(loadedCount / totalItems) * 100` (line 21). -/
def percentage (total loaded : Nat) : ℚ := (loaded : ℚ) / (total : ℚ) * 100

theorem increment_iterate (total : Nat) (htot : 1 ≤ total) (k : Nat) :
    ((increment total)^[k] (⟨0, false⟩ : PreState)).loadedCount = k ∧
    ((increment total)^[k] (⟨0, false⟩ : PreState)).fadeScheduled = decide (total ≤ k) := by
  induction k with
  | zero =>
    refine ⟨rfl, ?_⟩
    have h : ¬ total ≤ 0 := by omega
    simp [h]
  | succ k ih =>
    rcases ih with ⟨ih1, ih2⟩
    rw [Function.iterate_succ_apply']
    constructor
    · simp [increment, ih1]
    · simp only [increment, ih1, ih2]
      by_cases h : total ≤ k
      · have h2 : total ≤ k + 1 := by omega
        simp [h, h2]
      · simp [h]

/-- Claim C1: for every image count N ≥ 0 the preloader's counter reaches
its total (progress exactly 100%) after exactly N image increments plus 2
fixed increments (the N = 0 case being the 2 synthetic increments, since
`totalItems 0 = 2`), never before those increments and never needing more:
after k increments the fade-out is scheduled iff k ≥ N + 2, the progress
percentage is exactly 100 at the total, and is below 100 iff the counter is
still below the total. -/
theorem claim_C1 (N k : Nat) :
    (((increment (totalItems N))^[k] (⟨0, false⟩ : PreState)).fadeScheduled = true ↔
      N + 2 ≤ k) ∧
    percentage (totalItems N) (totalItems N) = 100 ∧
    (percentage (totalItems N) k < 100 ↔ k < totalItems N) := by
  have htot : 1 ≤ totalItems N := by simp [totalItems]
  have ht0 : 0 < totalItems N := htot
  have htq : (0 : ℚ) < (totalItems N : ℚ) := by exact_mod_cast ht0
  refine ⟨?_, ?_, ?_⟩
  · rw [(increment_iterate (totalItems N) htot k).2]
    simp [totalItems]
  · have hne : ((totalItems N : ℚ)) ≠ 0 := ne_of_gt htq
    rw [percentage, div_self hne, one_mul]
  · constructor
    · intro h
      by_contra hk
      push_neg at hk
      have h1 : (1 : ℚ) ≤ (k : ℚ) / (totalItems N : ℚ) := by
        rw [le_div_iff₀ htq, one_mul]
        exact_mod_cast hk
      rw [percentage] at h
      nlinarith
    · intro h
      have h1 : (k : ℚ) / (totalItems N : ℚ) < 1 := by
        rw [div_lt_one htq]
        exact_mod_cast h
      rw [percentage]
      nlinarith

/-! ## Active navigation highlighting (main.js lines 399-426)

For a section with `offsetTop` and `offsetHeight`, the handler computes
`sectionTop = offsetTop - 100` and marks the matching nav link active iff
`scrollY > sectionTop && scrollY <= sectionTop + sectionHeight`. -/

/-- Whether `highlightNavLink` (lines 402-416) leaves the section's nav link
carrying the `active` class, as a function of the scroll offset and the
section's geometry. -/
def highlightActive (scrollY offsetTop sectionHeight : Int) : Bool :=
  let sectionTop := offsetTop - 100
  decide (sectionTop < scrollY) && decide (scrollY ≤ sectionTop + sectionHeight)

/-- The interval claimed by the spec for C3, closed at the lower bound and
open at the upper bound: scrollY ∈ [sectionTop - 100, sectionTop - 100 + height). -/
def claimedActiveInterval (scrollY offsetTop sectionHeight : Int) : Bool :=
  decide (offsetTop - 100 ≤ scrollY) && decide (scrollY < offsetTop - 100 + sectionHeight)

/-- Counterexample to claim C3 as stated: section with offsetTop 200 and
height 300, scroll offset 100 = sectionTop - 100.  The claimed closed-open
interval contains it, but the code's strict `scrollY > sectionTop` test
leaves the link inactive. -/
theorem claim_C3_counterexample :
    highlightActive 100 200 300 = false ∧ claimedActiveInterval 100 200 300 = true := by
  constructor <;> rfl

/-- Claim C3 (amended): the nav link is active after the handler iff the
scroll offset lies in the interval OPEN at the lower bound and CLOSED at
the upper bound: sectionTop - 100 < scrollY ≤ sectionTop - 100 + height. -/
theorem claim_C3_amended (scrollY offsetTop sectionHeight : Int) :
    highlightActive scrollY offsetTop sectionHeight = true ↔
      offsetTop - 100 < scrollY ∧ scrollY ≤ offsetTop - 100 + sectionHeight := by
  simp [highlightActive]

/-! ## Theme switcher (main.js lines 92-112)

State: the persisted preference (`localStorage`, `none` when absent), the
`data-theme` attribute on the root element, and the checkbox state. -/

/-- Theme-relevant state: local-storage value under key `theme`, the
root element's `data-theme` attribute, and `themeToggle.checked`. -/
structure ThemeState where
  storage : Option String
  attr : Option String
  checked : Bool
deriving DecidableEq

/-- `toggleTheme` (lines 93-97): reads `themeToggle.checked`, writes both
the `data-theme` attribute and the stored preference to `dark`/`light`. -/
def toggleTheme (s : ThemeState) : ThemeState :=
  let v := if s.checked then "dark" else "light"
  ⟨some v, some v, s.checked⟩

/-- `themeSwitcher.init` (lines 99-107): `savedTheme = localStorage.getItem('theme') || 'dark'`
(the empty string is falsy in JS, hence also defaulted), sets the attribute
to it and the checkbox to `savedTheme === 'dark'`. -/
def themeInit (s : ThemeState) : ThemeState :=
  let savedTheme :=
    match s.storage with
    | none => "dark"
    | some v => if v = "" then "dark" else v
  ⟨s.storage, some savedTheme, decide (savedTheme = "dark")⟩

/-- Claim C5: theme persistence round-trips.  Toggling with the control
checked stores `dark`, and re-initialization restores attribute `dark`,
checked true; toggling unchecked stores `light` and re-initialization
restores `light`, checked false; with no stored value, initialization
defaults to `dark`, checked true. -/
theorem claim_C5 (s : ThemeState) :
    ((themeInit (toggleTheme ⟨s.storage, s.attr, true⟩)).attr = some "dark" ∧
      (themeInit (toggleTheme ⟨s.storage, s.attr, true⟩)).checked = true) ∧
    ((themeInit (toggleTheme ⟨s.storage, s.attr, false⟩)).attr = some "light" ∧
      (themeInit (toggleTheme ⟨s.storage, s.attr, false⟩)).checked = false) ∧
    ((themeInit ⟨none, s.attr, s.checked⟩).attr = some "dark" ∧
      (themeInit ⟨none, s.attr, s.checked⟩).checked = true) := by
  refine ⟨⟨?_, ?_⟩, ⟨?_, ?_⟩, ⟨?_, ?_⟩⟩ <;> rfl

/-! ## Counter animation guard (main.js lines 159-182)

`animateCounters` runs on every scroll event; a counter element starts its
interval only when its top is above the window height AND it does not yet
carry the `animated` class, which is added immediately. -/

/-- A counter element, reduced to the fields the idempotence guard uses:
whether it carries the `animated` class, and how many intervals have ever
been started for it. -/
structure CounterEl where
  animated : Bool
  started : Nat
deriving DecidableEq

/-- Effect of one `animateCounters` pass on one counter element, given
whether `getBoundingClientRect().top < window.innerHeight` held at that
scroll event (lines 160-180). -/
def scrollTick (inViewport : Bool) (c : CounterEl) : CounterEl :=
  if inViewport && !c.animated then ⟨true, c.started + 1⟩ else c

/-- Claim C6: once a counter element carries the `animated` class, no
sequence of further scroll events (whatever viewport positions they see)
changes it — no new interval is started and it stays marked. -/
theorem claim_C6 (c : CounterEl) (views : List Bool) (h : c.animated = true) :
    views.foldl (fun st v => scrollTick v st) c = c := by
  induction views with
  | nil => rfl
  | cons v vs ih =>
    have hstep : scrollTick v c = c := by
      rcases c with ⟨a, st⟩
      simp only at h
      subst h
      simp [scrollTick]
    rw [List.foldl_cons, hstep, ih]

/-- Witness for claim C6 at a concrete animated counter and scroll sequence. -/
theorem claim_C6_witness :
    (⟨true, 1⟩ : CounterEl).animated = true ∧
      [true, false, true].foldl (fun st v => scrollTick v st) (⟨true, 1⟩ : CounterEl) =
        ⟨true, 1⟩ :=
  ⟨rfl, claim_C6 ⟨true, 1⟩ [true, false, true] rfl⟩

/-! ## Mobile menu (main.js lines 66-87)

The menu-button click handler toggles `active` on the hamburger icon and
the nav panel and `menu-open` on the document body. -/

/-- The three class memberships the mobile-menu button toggles. -/
structure MenuState where
  hamburgerActive : Bool
  navActive : Bool
  menuOpen : Bool
deriving DecidableEq

/-- The menu-button click handler (lines 68-72): three `classList.toggle`
calls. -/
def menuBtnClick (s : MenuState) : MenuState :=
  ⟨!s.hamburgerActive, !s.navActive, !s.menuOpen⟩

/-- The nav-link click handler (lines 75-81): three `classList.remove`
calls, forcing the closed state. -/
def navLinkClick (_ : MenuState) : MenuState :=
  ⟨false, false, false⟩

/-- Claim C7: clicking the mobile-menu button twice restores all three
class memberships to their original values — the click handler is an
involution on the menu state. -/
theorem claim_C7 (s : MenuState) : menuBtnClick (menuBtnClick s) = s := by
  rcases s with ⟨a, b, c⟩
  simp [menuBtnClick]

/-! ## Counter animation interval (main.js lines 164-180)

`const target = parseInt(counter.getAttribute('data-target'))` — `none`
models a missing / non-numeric attribute (`parseInt` yields NaN).  The
interval callback runs `count++; counter.textContent = count;` and clears
itself when `count >= target`, so the value displayed after the k-th tick
is k and the final displayed value equals the number of ticks fired. -/

/-- The `count >= target` stop test (line 176).  With a NaN target
(`none`) every JS comparison is false. -/
def stopCond : Option Int → Int → Bool
  | none, _ => false
  | some t, c => decide (t ≤ c)

/-- `const interval = Math.floor(duration / target)` with `duration = 2000`
(lines 169-170); `Int.fdiv` is floor division, matching `Math.floor`. -/
def intervalMs (target : Int) : Int := Int.fdiv 2000 target

/-- The `setInterval` delay `Math.max(interval, 10)` (line 179). -/
def periodMs (target : Int) : Int := max (intervalMs target) 10

/-- Number of ticks the interval callback fires before `clearInterval`,
starting from the given `count` (the callback increments `count`, displays
it, and stops once `count >= target`; lines 172-178).  Terminates for every
integer target. -/
def animTicks (target : Int) (count : Nat) : Nat :=
  if stopCond (some target) ((count : Int) + 1) then 1 else 1 + animTicks target (count + 1)
termination_by (target - count).toNat
decreasing_by
  simp only [stopCond, decide_eq_true_eq] at *
  omega

theorem animTicks_eq (t : Int) (d : Nat) :
    ∀ c : Nat, (c : Int) < t → (t - c).toNat = d → animTicks t c = d := by
  induction d with
  | zero =>
    intro c hc hd
    exfalso
    omega
  | succ d ih =>
    intro c hc hd
    rw [animTicks]
    simp only [stopCond, decide_eq_true_eq]
    by_cases h : t ≤ (c : Int) + 1
    · rw [if_pos h]
      omega
    · rw [if_neg h]
      rw [ih (c + 1) (by push_cast; omega) (by push_cast; omega)]
      omega

/-- Claim C2 (amended): for a counter whose `data-target` parses to an
integer T ≥ 1, the animation terminates with displayed value exactly T,
the interval fires exactly T ticks before self-canceling (each tick
incrementing the displayed count by 1, so the displayed value after the
k-th tick is k), and the tick period is `max(floor(2000/T), 10)`
milliseconds.  The tick count claimed in the spec,
ceil(T / max(floor(2000/T), 10)), is wrong in general (see the
counterexample); the code's tick count is T itself. -/
theorem claim_C2_amended (T : Int) (h : 1 ≤ T) :
    animTicks T 0 = T.toNat ∧ (animTicks T 0 : Int) = T ∧
      periodMs T = max (2000 / T) 10 := by
  have ht : animTicks T 0 = T.toNat := by
    apply animTicks_eq T T.toNat 0
    · omega
    · omega
  refine ⟨ht, by rw [ht]; omega, ?_⟩
  rw [periodMs, intervalMs, Int.fdiv_eq_ediv 2000 (by omega)]

/-- Witness for the amended claim C2 at T = 7. -/
theorem claim_C2_witness :
    (1 : Int) ≤ 7 ∧
      (animTicks 7 0 = (7 : Int).toNat ∧ ((animTicks 7 0 : Int) = 7 ∧
        periodMs 7 = max (2000 / 7) 10)) :=
  ⟨by decide, claim_C2_amended 7 (by decide)⟩

/-- Counterexample to claim C2 as stated: at T = 2 the period is
max(floor(2000/2), 10) = 1000 ms, so the claimed tick count
ceil(2 / 1000) = 1, but the interval fires 2 ticks (the stop test
`count >= 2` first holds at count = 2). -/
theorem claim_C2_counterexample :
    animTicks 2 0 = 2 ∧ periodMs 2 = 1000 ∧
      (2 + periodMs 2 - 1) / periodMs 2 = 1 ∧
      (animTicks 2 0 : Int) ≠ (2 + periodMs 2 - 1) / periodMs 2 := by
  have h2 : animTicks 2 0 = 2 := animTicks_eq 2 2 0 (by omega) (by decide)
  refine ⟨h2, by decide, by decide, ?_⟩
  rw [h2]
  decide

/-- Claim C9: the counter animation's termination is conditional on a
numeric target.  With a missing or non-numeric `data-target` (`parseInt`
yields NaN, modelled as `none`) the stop test `count >= target` is false at
every count, so the interval never self-cancels; and for a parsed target
T ≤ 0 the interval stops after the first tick with displayed value 1
(the displayed value equals the number of ticks fired), not T. -/
theorem claim_C9 :
    (∀ c : Int, stopCond none c = false) ∧
    (∀ t : Int, t ≤ 0 → animTicks t 0 = 1) := by
  constructor
  · intro c
    rfl
  · intro t ht
    rw [animTicks]
    simp only [stopCond, decide_eq_true_eq]
    rw [if_pos (show t ≤ ((0 : Nat) : Int) + 1 by push_cast; omega)]

/-- Witness for claim C9: NaN target never stops at count 5; target -3
stops after one tick. -/
theorem claim_C9_witness :
    stopCond none 5 = false ∧ ((-3 : Int) ≤ 0 ∧ animTicks (-3) 0 = 1) :=
  ⟨claim_C9.1 5, by decide, claim_C9.2 (-3) (by decide)⟩

/-! ## Feature tabs (main.js lines 200-220)

A click on a tab button removes `active` from every button and every pane,
adds it to the clicked button, then adds it to
`document.getElementById(tabId)` — which throws when no element has that
id, AFTER the clicked button has already been re-activated. -/

/-- A tab button: its `data-tab` attribute and its `active` class. -/
structure TabButton where
  tabId : String
  active : Bool
deriving DecidableEq

/-- A tab pane: its element id and its `active` class. -/
structure TabPane where
  id : String
  active : Bool
deriving DecidableEq

/-- The document slice the tab handler touches: the `.tab-btn` elements and
the `.tab-pane` elements, in document order. -/
structure TabState where
  btns : List TabButton
  panes : List TabPane
deriving DecidableEq

/-- `tabBtns.forEach(b => b.classList.remove('active'))` (line 207). -/
def clearBtns (bs : List TabButton) : List TabButton :=
  bs.map fun b => ⟨b.tabId, false⟩

/-- `tabPanes.forEach(p => p.classList.remove('active'))` (line 208). -/
def clearPanes (ps : List TabPane) : List TabPane :=
  ps.map fun p => ⟨p.id, false⟩

/-- `document.getElementById(tabId).classList.add('active')` (line 212):
activates the first element with the given id, `none` when the lookup is
null (the statement then throws). -/
def setActiveFirst (tabId : String) : List TabPane → Option (List TabPane)
  | [] => none
  | p :: ps =>
    if p.id = tabId then some (⟨p.id, true⟩ :: ps)
    else (setActiveFirst tabId ps).map (p :: ·)

/-- The click handler of one tab button (lines 203-213), identified by its
index among `.tab-btn` elements.  `Except.error` carries the document
state at the moment the null `getElementById` lookup throws. -/
def clickTab (s : TabState) (i : Nat) : Except TabState TabState :=
  match s.btns.get? i with
  | none => Except.ok s
  | some btn =>
    let btns2 := (clearBtns s.btns).set i ⟨btn.tabId, true⟩
    let panes1 := clearPanes s.panes
    match setActiveFirst btn.tabId panes1 with
    | some panes2 => Except.ok ⟨btns2, panes2⟩
    | none => Except.error ⟨btns2, panes1⟩

/-- A sequence of tab-button clicks, stopping at the first thrown error. -/
def clickSeq (s : TabState) : List Nat → Except TabState TabState
  | [] => Except.ok s
  | i :: rest =>
    match clickTab s i with
    | Except.ok s1 => clickSeq s1 rest
    | Except.error e => Except.error e

/-- The pane ids present in the document, in order. -/
def paneIds (s : TabState) : List String := s.panes.map TabPane.id

/-- The buttons' `data-tab` attributes, in order. -/
def btnTabIds (s : TabState) : List String := s.btns.map TabButton.tabId

/-- A click is valid when the button exists and its `data-tab` attribute
names some pane id in the document. -/
def validClick (s : TabState) (i : Nat) : Bool :=
  match (btnTabIds s).get? i with
  | none => false
  | some t => decide (t ∈ paneIds s)

/-- Exactly one button and exactly one pane carry `active`, and the pane's
id equals the button's `data-tab` attribute. -/
def singleSelection (s : TabState) : Prop :=
  ∃ b p, s.btns.filter (fun x => x.active) = [b] ∧
    s.panes.filter (fun x => x.active) = [p] ∧ p.id = b.tabId

theorem clearBtns_all (bs : List TabButton) : ∀ x ∈ clearBtns bs, x.active = false := by
  intro x hx
  rcases List.mem_map.mp hx with ⟨b, _, hb⟩
  rw [← hb]

theorem clearPanes_all (ps : List TabPane) : ∀ x ∈ clearPanes ps, x.active = false := by
  intro x hx
  rcases List.mem_map.mp hx with ⟨p, _, hp⟩
  rw [← hp]

theorem clearBtns_tabIds (bs : List TabButton) :
    (clearBtns bs).map TabButton.tabId = bs.map TabButton.tabId := by
  induction bs with
  | nil => rfl
  | cons b bs ih => simp only [clearBtns, List.map_cons] at *; rw [ih]

theorem clearPanes_ids (ps : List TabPane) :
    (clearPanes ps).map TabPane.id = ps.map TabPane.id := by
  induction ps with
  | nil => rfl
  | cons p ps ih => simp only [clearPanes, List.map_cons] at *; rw [ih]

theorem filter_set_inactive (bs : List TabButton) (i : Nat) (b : TabButton)
    (hall : ∀ x ∈ bs, x.active = false) (hi : i < bs.length) (hb : b.active = true) :
    (bs.set i b).filter (fun x => x.active) = [b] := by
  induction bs generalizing i with
  | nil => simp at hi
  | cons x xs ih =>
    cases i with
    | zero =>
      rw [List.set_cons_zero, List.filter_cons_of_pos hb, List.filter_eq_nil_iff.mpr]
      intro a ha
      simp [hall a (List.mem_cons_of_mem x ha)]
    | succ i =>
      rw [List.set_cons_succ, List.filter_cons_of_neg]
      · exact ih i (fun a ha => hall a (List.mem_cons_of_mem x ha)) (by simpa using hi)
      · simp [hall x (List.mem_cons_self x xs)]

theorem set_get_eq {α : Type} (l : List α) (i : Nat) (a : α) (h : l.get? i = some a) :
    l.set i a = l := by
  induction l generalizing i with
  | nil => simp at h
  | cons x xs ih =>
    cases i with
    | zero =>
      simp only [List.get?_cons_zero, Option.some.injEq] at h
      rw [List.set_cons_zero, h]
    | succ i =>
      simp only [List.get?_cons_succ] at h
      rw [List.set_cons_succ, ih i h]

theorem setActiveFirst_some (t : String) (ps : List TabPane)
    (hin : t ∈ ps.map TabPane.id) (hall : ∀ p ∈ ps, p.active = false) :
    ∃ qs q, setActiveFirst t ps = some qs ∧
      qs.filter (fun x => x.active) = [q] ∧ q.id = t ∧
      qs.map TabPane.id = ps.map TabPane.id := by
  induction ps with
  | nil => simp at hin
  | cons p ps ih =>
    by_cases h : p.id = t
    · refine ⟨⟨p.id, true⟩ :: ps, ⟨p.id, true⟩, ?_, ?_, h, ?_⟩
      · rw [setActiveFirst, if_pos h]
      · rw [List.filter_cons_of_pos rfl, List.filter_eq_nil_iff.mpr]
        intro a ha
        simp [hall a (List.mem_cons_of_mem p ha)]
      · simp
    · have hin' : t ∈ ps.map TabPane.id := by
        rcases List.mem_map.mp hin with ⟨q, hq, hqt⟩
        rcases List.mem_cons.mp hq with hq1 | hq2
        · exact absurd (hq1 ▸ hqt) h
        · exact List.mem_map.mpr ⟨q, hq2, hqt⟩
      obtain ⟨qs, q, hsome, hfil, hqid, hids⟩ :=
        ih hin' (fun a ha => hall a (List.mem_cons_of_mem p ha))
      refine ⟨p :: qs, q, ?_, ?_, hqid, ?_⟩
      · rw [setActiveFirst, if_neg h, hsome, Option.map_some']
      · rw [List.filter_cons_of_neg, hfil]
        simp [hall p (List.mem_cons_self p ps)]
      · simp only [List.map_cons]
        rw [hids]

theorem setActiveFirst_none_eq (t : String) (ps : List TabPane)
    (hout : t ∉ ps.map TabPane.id) : setActiveFirst t ps = none := by
  induction ps with
  | nil => rfl
  | cons p ps ih =>
    simp only [List.map_cons, List.mem_cons, not_or] at hout
    rw [setActiveFirst, if_neg (fun he => hout.1 he.symm), ih hout.2, Option.map_none']

theorem clickTab_ok (s : TabState) (i : Nat) (h : validClick s i = true) :
    ∃ s2, clickTab s i = Except.ok s2 ∧ singleSelection s2 ∧
      btnTabIds s2 = btnTabIds s ∧ paneIds s2 = paneIds s := by
  rw [validClick] at h
  rcases hg : (btnTabIds s).get? i with _ | t
  · rw [hg] at h
    simp at h
  · rw [hg] at h
    have hmem : t ∈ paneIds s := by simpa using h
    rw [btnTabIds, List.get?_map] at hg
    rcases hb : s.btns.get? i with _ | btn
    · rw [hb] at hg
      simp at hg
    · rw [hb] at hg
      simp only [Option.map_some', Option.some.injEq] at hg
    -- hg : btn.tabId = t
      have hi : i < s.btns.length := List.get?_eq_some.mp hb |>.1
      have hin : btn.tabId ∈ (clearPanes s.panes).map TabPane.id := by
        rw [clearPanes_ids, hg]
        exact hmem
      obtain ⟨qs, q, hsome, hfil, hqid, hids⟩ :=
        setActiveFirst_some btn.tabId (clearPanes s.panes) hin (clearPanes_all s.panes)
      refine ⟨⟨(clearBtns s.btns).set i ⟨btn.tabId, true⟩, qs⟩, ?_, ?_, ?_, ?_⟩
      · rw [clickTab, hb]
        simp only [hsome]
      · refine ⟨⟨btn.tabId, true⟩, q, ?_, ?_, ?_⟩
        · exact filter_set_inactive _ i _ (clearBtns_all s.btns)
            (by simpa [clearBtns] using hi) rfl
        · exact hfil
        · rw [hqid, hg]
      · rw [btnTabIds, btnTabIds, List.map_set, clearBtns_tabIds]
        exact set_get_eq _ i _ (by rw [List.get?_map, hb, Option.map_some'])
      · rw [paneIds, paneIds, hids, clearPanes_ids]

theorem validClick_eq_of (s1 s2 : TabState) (hb : btnTabIds s1 = btnTabIds s2)
    (hp : paneIds s1 = paneIds s2) (k : Nat) : validClick s1 k = validClick s2 k := by
  rw [validClick, validClick, hb, hp]

/-- Claim C4: for every non-empty sequence of clicks on tab buttons, each
click naming a pane id present in the document, the sequence runs without
fault and afterwards exactly one tab button and exactly one tab pane carry
the `active` class, the pane's id equal to the button's `data-tab`
attribute. -/
theorem claim_C4 (s : TabState) (is : List Nat) (hne : is ≠ [])
    (hv : ∀ i ∈ is, validClick s i = true) :
    ∃ s2, clickSeq s is = Except.ok s2 ∧ singleSelection s2 := by
  induction is generalizing s with
  | nil => exact absurd rfl hne
  | cons i rest ih =>
    have hvi : validClick s i = true := hv i (List.mem_cons_self i rest)
    obtain ⟨s1, hok, hsel, hbt, hpn⟩ := clickTab_ok s i hvi
    cases rest with
    | nil =>
      refine ⟨s1, ?_, hsel⟩
      rw [clickSeq, hok]
      rfl
    | cons j js =>
      have hv1 : ∀ k ∈ (j :: js), validClick s1 k = true := by
        intro k hk
        rw [validClick_eq_of s1 s hbt hpn k]
        exact hv k (List.mem_cons_of_mem i hk)
      obtain ⟨s2, hrun, hsel2⟩ := ih s1 (by simp) hv1
      refine ⟨s2, ?_, hsel2⟩
      rw [clickSeq, hok]
      exact hrun

/-- Witness for claim C4: two buttons and two panes, click sequence
0, 1, 0. -/
theorem claim_C4_witness :
    ([0, 1, 0] : List Nat) ≠ [] ∧
    (∀ i ∈ ([0, 1, 0] : List Nat),
      validClick ⟨[⟨"a", false⟩, ⟨"b", false⟩], [⟨"a", false⟩, ⟨"b", false⟩]⟩ i = true) ∧
    ∃ s2, clickSeq ⟨[⟨"a", false⟩, ⟨"b", false⟩], [⟨"a", false⟩, ⟨"b", false⟩]⟩ [0, 1, 0] =
      Except.ok s2 ∧ singleSelection s2 :=
  ⟨by decide, by decide,
    claim_C4 ⟨[⟨"a", false⟩, ⟨"b", false⟩], [⟨"a", false⟩, ⟨"b", false⟩]⟩ [0, 1, 0]
      (by decide) (by decide)⟩

/-- Counterexample to claim C10 as stated: one button with `data-tab`
equal to `missing`, one pane with id `p1`.  Clicking the button faults on
the null lookup, but the document is left with ONE active button (the
clicked one, re-activated on line 211 before the faulting line 212), not
zero. -/
theorem claim_C10_counterexample :
    clickTab ⟨[⟨"missing", false⟩], [⟨"p1", true⟩]⟩ 0 =
      Except.error ⟨[⟨"missing", true⟩], [⟨"p1", false⟩]⟩ ∧
    ¬ ((⟨[⟨"missing", true⟩], [⟨"p1", false⟩]⟩ : TabState).btns.filter
        (fun x => x.active)).length = 0 := by
  constructor
  · rfl
  · decide

/-- Claim C10 (amended): clicking a tab button whose `data-tab` attribute
matches no pane id first removes `active` from every button and pane, then
re-activates the clicked button, and only then faults on the null pane
lookup — leaving the document with exactly one active button (the clicked
one) and zero active panes. -/
theorem claim_C10_amended (s : TabState) (i : Nat) (btn : TabButton)
    (hget : s.btns.get? i = some btn) (hmiss : btn.tabId ∉ paneIds s) :
    ∃ e, clickTab s i = Except.error e ∧
      e.btns.filter (fun x => x.active) = [⟨btn.tabId, true⟩] ∧
      e.panes.filter (fun x => x.active) = [] := by
  have hi : i < s.btns.length := List.get?_eq_some.mp hget |>.1
  have hnone : setActiveFirst btn.tabId (clearPanes s.panes) = none := by
    apply setActiveFirst_none_eq
    rw [clearPanes_ids]
    exact hmiss
  refine ⟨⟨(clearBtns s.btns).set i ⟨btn.tabId, true⟩, clearPanes s.panes⟩, ?_, ?_, ?_⟩
  · rw [clickTab, hget]
    simp only [hnone]
  · exact filter_set_inactive _ i _ (clearBtns_all s.btns)
      (by simpa [clearBtns] using hi) rfl
  · rw [List.filter_eq_nil_iff.mpr]
    intro a ha
    simp [clearPanes_all s.panes a ha]

/-- Witness for the amended claim C10 at the concrete one-button,
one-pane document of the counterexample. -/
theorem claim_C10_amended_witness :
    (⟨[⟨"missing", false⟩], [⟨"p1", true⟩]⟩ : TabState).btns.get? 0 =
      some ⟨"missing", false⟩ ∧
    (TabButton.mk "missing" false).tabId ∉
      paneIds ⟨[⟨"missing", false⟩], [⟨"p1", true⟩]⟩ ∧
    ∃ e, clickTab ⟨[⟨"missing", false⟩], [⟨"p1", true⟩]⟩ 0 = Except.error e ∧
      e.btns.filter (fun x => x.active) = [⟨(TabButton.mk "missing" false).tabId, true⟩] ∧
      e.panes.filter (fun x => x.active) = [] :=
  ⟨rfl, by decide,
    claim_C10_amended ⟨[⟨"missing", false⟩], [⟨"p1", true⟩]⟩ 0 ⟨"missing", false⟩
      rfl (by decide)⟩

/-! ## Module write footprints (main.js, whole file)

Direct DOM writes performed by each module's handlers (class lists, inline
styles, attributes, text, element properties), and the local-storage keys
each writes.  Writes performed inside the third-party libraries (AOS,
GSAP, particles.js) are behind opaque library calls and are out of scope,
as the spec's external-interface section declares. -/

/-- The DOM nodes (by role) the script writes to. -/
inductive DomNode
  | loaderEl
  | progressBar
  | body
  | docElement
  | headerEl
  | hamburgerEl
  | navPanel
  | navLinkEl
  | themeToggleEl
  | backToTopEl
  | counterEl
  | tabBtnEl
  | tabPaneEl
deriving DecidableEq

/-- Which aspect of a node a write mutates. -/
inductive Aspect
  | classList
  | inlineStyle
  | attrValue
  | text
  | checkedProp
deriving DecidableEq

/-- The eight modules wired up on DOMContentLoaded (lines 431-441). -/
inductive JsModule
  | preloaderM
  | mobileMenuM
  | themeSwitcherM
  | scrollEffectsM
  | featureTabsM
  | animationsM
  | particlesM
  | activeNavM
deriving DecidableEq, Fintype

/-- Direct DOM writes of each module, read off its handlers:
preloader lines 22, 26-27; mobileMenu lines 69-71, 77-79; themeSwitcher
lines 95, 102-103; scrollEffects lines 123-132, 165, 174; featureTabs
lines 207-212; activeNavigation lines 411-413.  The animations and
particles modules only call into external libraries. -/
def domWrites : JsModule → List (DomNode × Aspect)
  | .preloaderM =>
      [(.progressBar, .inlineStyle), (.loaderEl, .classList), (.body, .inlineStyle)]
  | .mobileMenuM =>
      [(.hamburgerEl, .classList), (.navPanel, .classList), (.body, .classList)]
  | .themeSwitcherM =>
      [(.docElement, .attrValue), (.themeToggleEl, .checkedProp)]
  | .scrollEffectsM =>
      [(.headerEl, .classList), (.backToTopEl, .classList),
        (.counterEl, .classList), (.counterEl, .text)]
  | .featureTabsM =>
      [(.tabBtnEl, .classList), (.tabPaneEl, .classList)]
  | .animationsM => []
  | .particlesM => []
  | .activeNavM =>
      [(.navLinkEl, .classList)]

/-- Local-storage keys each module writes (line 96 only). -/
def storageWrites : JsModule → List String
  | .themeSwitcherM => ["theme"]
  | _ => []

/-- The nodes a module writes, forgetting which aspect. -/
def nodesWritten (m : JsModule) : List DomNode := (domWrites m).map Prod.fst

/-- Counterexample to claim C8 as stated: `document.body` is a single DOM
node mutated by two distinct modules — the preloader writes its inline
style (`overflow`, line 27) and the mobile menu writes its class list
(`menu-open`, line 71) — so the write footprints are not pairwise disjoint
at node granularity. -/
theorem claim_C8_counterexample :
    JsModule.preloaderM ≠ JsModule.mobileMenuM ∧
    DomNode.body ∈ nodesWritten JsModule.preloaderM ∧
    DomNode.body ∈ nodesWritten JsModule.mobileMenuM := by
  refine ⟨?_, ?_, ?_⟩ <;> decide

/-- Claim C8 (amended): the write footprints of the eight modules are
pairwise disjoint at (node, aspect) granularity — no (node, mutated
aspect) pair and no local-storage key is written by two distinct modules.
(Node-level disjointness fails only on `document.body`, whose inline style
belongs to the preloader and whose class list to the mobile menu.) -/
theorem claim_C8_amended (m1 m2 : JsModule) (hne : m1 ≠ m2) :
    (∀ p ∈ domWrites m1, p ∉ domWrites m2) ∧
    (∀ k ∈ storageWrites m1, k ∉ storageWrites m2) := by
  revert hne
  revert m2
  revert m1
  decide

/-- Witness for the amended claim C8 at the preloader / mobile-menu pair. -/
theorem claim_C8_amended_witness :
    JsModule.preloaderM ≠ JsModule.mobileMenuM ∧
    ((∀ p ∈ domWrites JsModule.preloaderM, p ∉ domWrites JsModule.mobileMenuM) ∧
      (∀ k ∈ storageWrites JsModule.preloaderM, k ∉ storageWrites JsModule.mobileMenuM)) :=
  ⟨by decide, claim_C8_amended JsModule.preloaderM JsModule.mobileMenuM (by decide)⟩
